import Mathlib

/-!
Verification development for the PXMonitor streaming aggregation engine
(`pxmonitor/tshark_libs/capture_to_csv.py`).

Packets are Python dictionaries mapping field names to values; we embed them
as association lists over a sum type of the value kinds that occur (floats as
exact rationals, ints as integers, strings, booleans).  `dict.get(k, d)` is
embedded by typed getters that return the stored value when a binding of the
expected kind is present and the default otherwise; bindings of an unexpected
kind cannot arise from `parse_packet`, whose outputs assign every float field
a float, every int field an int, and so on.  Python floats are modelled as
exact rationals (reals once a square root enters), `round` as round-half-even.
-/

/-- The kinds of values a parsed packet dictionary can hold. -/
inductive FieldValue where
  | f (q : ℚ)
  | i (n : ℤ)
  | s (v : String)
  | b (v : Bool)
deriving DecidableEq, Repr

/-- A packet, as the Python dict produced by `parse_packet`: bindings are
consed on the left, so lookup of the first match realises last-write-wins. -/
def Dict : Type := List (String × FieldValue)

instance : DecidableEq Dict := by unfold Dict; infer_instance

/-- `d[k]` when present: the most recent binding of `k`. -/
def dget (d : Dict) (k : String) : Option FieldValue :=
  (List.find? (fun e => e.1 = k) d).map (fun e => e.2)

/-- `p.get(k, default)` at a float-valued field. -/
def getQ (d : Dict) (k : String) (dflt : ℚ) : ℚ :=
  match dget d k with
  | some (.f q) => q
  | _ => dflt

/-- `p.get(k, default)` at an int-valued field. -/
def getZ (d : Dict) (k : String) (dflt : ℤ) : ℤ :=
  match dget d k with
  | some (.i n) => n
  | _ => dflt

/-- `p.get(k, default)` at a string-valued field. -/
def getS (d : Dict) (k : String) (dflt : String) : String :=
  match dget d k with
  | some (.s v) => v
  | _ => dflt

/-- `p.get(k, default)` at a bool-valued field. -/
def getB (d : Dict) (k : String) (dflt : Bool) : Bool :=
  match dget d k with
  | some (.b v) => v
  | _ => dflt

/-- The static port-to-application table `PORT_MAP`. -/
def PORT_MAP : List (ℤ × String) :=
  [(20, "FTP-DATA"), (21, "FTP"), (22, "SSH"), (23, "Telnet"), (25, "SMTP"),
   (53, "DNS"), (67, "DHCP"), (68, "DHCP"), (69, "TFTP"), (80, "HTTP"),
   (110, "POP3"), (123, "NTP"), (137, "NetBIOS-NS"), (138, "NetBIOS-DGM"),
   (139, "NetBIOS-SSN"), (143, "IMAP"), (161, "SNMP"), (162, "SNMP-TRAP"),
   (179, "BGP"), (389, "LDAP"), (443, "HTTPS"), (465, "SMTPS"),
   (514, "Syslog"), (587, "SMTP-Submission"), (636, "LDAPS"), (993, "IMAPS"),
   (995, "POP3S"), (1080, "SOCKS"), (1194, "OpenVPN"), (1433, "MSSQL"),
   (1521, "Oracle DB"), (1723, "PPTP"), (1812, "RADIUS"), (2049, "NFS"),
   (2082, "cPanel"), (2083, "cPanel-SSL"), (3306, "MySQL"), (3389, "RDP"),
   (3690, "Subversion"), (4444, "Metasploit"), (5000, "UPnP"),
   (5432, "PostgreSQL"), (5631, "PCAnywhere"), (5900, "VNC"), (6379, "Redis"),
   (8080, "HTTP-Alt"), (8443, "HTTPS-Alt"), (8888, "Alternate HTTP"),
   (9001, "Tor ORPort"), (9200, "Elasticsearch"), (10000, "Webmin"),
   (27017, "MongoDB"), (50000, "SAP"), (64738, "Mumble")]

/-- `port in PORT_MAP` / `PORT_MAP[port]`, combined as an optional lookup. -/
def portMapLookup (port : ℤ) : Option String :=
  (List.find? (fun e => e.1 = port) PORT_MAP).map (fun e => e.2)

/-- Python `int(s)` on plain decimal numerals (the numeral forms tshark
emits); malformed text yields `none`, which models the raised `ValueError`. -/
def parseInt (v : String) : Option ℤ :=
  v.toInt?

/-- Python `float(s)` on plain decimal numerals with an optional fractional
part; malformed text yields `none`, which models the raised `ValueError`.
(Exponent and other exotic float syntax is not needed by any claim.) -/
def parseFloat (v : String) : Option ℚ :=
  match v.splitOn "." with
  | [w] => (w.toInt?).map (fun n => (n : ℚ))
  | [w, fr] =>
    let neg := w.startsWith "-"
    let wabs := if neg then w.drop 1 else w
    match wabs.toNat?, fr.toNat? with
    | some a, some b =>
        let m : ℚ := (a : ℚ) + (b : ℚ) / (10 : ℚ) ^ fr.length
        some (if neg then -m else m)
    | _, _ => none
  | _ => none

/-- The field names converted with `float(value) if value else 0.0`. -/
def floatFields : List String :=
  ["frame.time_epoch", "frame.time_delta", "tcp.analysis.ack_rtt", "dns.time"]

/-- The field names converted with `int(value) if value else 0`. -/
def intFields : List String :=
  ["frame.len", "tcp.srcport", "tcp.dstport", "ip.ttl", "tcp.window_size_value"]

/-- One iteration of the conversion loop in `parse_packet`: convert `value`
according to `field_name`; `none` models a raised conversion error. -/
def convertField (name value : String) : Option FieldValue :=
  if floatFields.contains name then
    if value = "" then some (.f 0) else (parseFloat value).map .f
  else if intFields.contains name then
    if value = "" then some (.i 0) else (parseInt value).map .i
  else if name = "tcp.analysis.retransmission" then
    some (.b (value = "1"))
  else
    some (.s value)

/-- The conversion loop of `parse_packet`: walk the header, taking
`fields[i] if i < len(fields) else ""` for each position; a conversion
error anywhere aborts the whole loop (the `except` branch). -/
def parseLoop (fields : List String) (header : List String) (i : ℕ)
    (acc : Dict) : Option Dict :=
  match header with
  | [] => some acc
  | name :: rest =>
    match convertField name (fields.getD i "") with
    | some v => parseLoop fields rest (i + 1) ((name, v) :: acc)
    | none => none

/-- The minimal default packet returned by the `except` branch of
`parse_packet`; `now` is the wall-clock time `time.time()`. -/
def default_packet (now : ℚ) : Dict :=
  [("frame.time_epoch", .f now),
   ("ip.src", .s "unknown"),
   ("ip.dst", .s "unknown"),
   ("_ws.col.protocol", .s "Unknown"),
   ("frame.len", .i 64),
   ("tcp.srcport", .i 0),
   ("tcp.dstport", .i 0),
   ("ip.ttl", .i 64),
   ("tcp.flags", .s ""),
   ("tcp.window_size_value", .i 0),
   ("tcp.analysis.ack_rtt", .f 0),
   ("tcp.analysis.retransmission", .b false),
   ("frame.time_delta", .f 0),
   ("dns.time", .f 0)]

/-- `parse_packet(fields, header)`: build the packet dict field by field; any
conversion error is caught and the default packet is returned instead, so the
caller always receives a dict and never an exception. -/
def parse_packet (fields header : List String) (now : ℚ) : Dict :=
  (parseLoop fields header 0 []).getD (default_packet now)

/-- `calculate_average(values)`. -/
def calculate_average (values : List ℚ) : ℚ :=
  if values = [] then 0 else values.sum / values.length

/-- `statistics.stdev(values)` — modelled from the spec: the sample standard
deviation with the n−1 denominator, here in the sum-of-squares form
`(Σx² − (Σx)²/n)/(n−1)` under the square root.  The `statistics` module is
library code outside this repository; in exact arithmetic this is its value. -/
noncomputable def statistics_stdev (values : List ℚ) : ℝ :=
  Real.sqrt
    ((((values.map (fun x => x ^ 2)).sum - values.sum ^ 2 / values.length) /
      ((values.length : ℚ) - 1) : ℚ))

/-- The manual fallback branch of `calculate_std_dev` (lines 120–123):
mean, sum of squared differences over n−1, square root. -/
noncomputable def std_dev_fallback (values : List ℚ) : ℝ :=
  let avg := calculate_average values
  let squared_diff_sum := (values.map (fun x => (x - avg) ^ 2)).sum
  let variance := squared_diff_sum / ((values.length : ℚ) - 1)
  Real.sqrt (variance : ℚ)

/-- `calculate_std_dev(values)`: 0 for fewer than two samples, otherwise the
`statistics.stdev` value (the primary branch; the fallback computes the same
number in exact arithmetic). -/
noncomputable def calculate_std_dev (values : List ℚ) : ℝ :=
  if values.length ≤ 1 then 0 else statistics_stdev values

/-- Python `round(x)` on a rational: nearest integer, ties to even. -/
def pyRound (x : ℚ) : ℤ :=
  if Int.fract x < 1 / 2 then ⌊x⌋
  else if (1 : ℚ) / 2 < Int.fract x then ⌊x⌋ + 1
  else if Even ⌊x⌋ then ⌊x⌋ else ⌊x⌋ + 1

/-- Python `round(x, 2)` on a rational. -/
def round2 (x : ℚ) : ℚ :=
  (pyRound (x * 100) : ℚ) / 100

/-- Python `round(x)` on a real (used once a square root has entered). -/
noncomputable def pyRoundR (x : ℝ) : ℤ :=
  if Int.fract x < 1 / 2 then ⌊x⌋
  else if (1 : ℝ) / 2 < Int.fract x then ⌊x⌋ + 1
  else if Even ⌊x⌋ then ⌊x⌋ else ⌊x⌋ + 1

/-- Python `round(x, 2)` on a real. -/
noncomputable def round2R (x : ℝ) : ℝ :=
  (pyRoundR (x * 100) : ℝ) / 100

/-- The per-packet resolution in the loop body of `identify_top_applications`:
source port in `PORT_MAP`, else destination port in `PORT_MAP`, else the
dynamic-port heuristic, else the protocol column. -/
def app_label (p : Dict) : String :=
  let src_port := getZ p "tcp.srcport" 0
  let dst_port := getZ p "tcp.dstport" 0
  match portMapLookup src_port with
  | some name => name
  | none =>
    match portMapLookup dst_port with
    | some name => name
    | none =>
      if 1024 < dst_port ∧ dst_port < 49151 then
        "App-Port-" ++ toString dst_port
      else
        let protocol := getS p "_ws.col.protocol" "Unknown"
        if protocol ≠ "" ∧ protocol ≠ "Unknown" then protocol else "Unknown"

/-- Add `v` bytes under key `k` in the running per-application tally,
preserving first-insertion order as `defaultdict` iteration does. -/
def tallyAdd (acc : List (String × ℤ)) (k : String) (v : ℤ) :
    List (String × ℤ) :=
  match acc with
  | [] => [(k, v)]
  | (k0, v0) :: rest =>
    if k0 = k then (k0, v0 + v) :: rest else (k0, v0) :: tallyAdd rest k v

/-- The `applications` defaultdict after the loop of
`identify_top_applications`: per-label total of `frame.len`. -/
def appTally (packets : List Dict) : List (String × ℤ) :=
  packets.foldl (fun acc p => tallyAdd acc (app_label p) (getZ p "frame.len" 0)) []

/-- `identify_top_applications(packets, top_n)`: the tally sorted by
descending traffic volume (a stable sort, like Python `sorted`), truncated. -/
def identify_top_applications (packets : List Dict) (top_n : ℕ) :
    List (String × ℤ) :=
  if packets = [] then []
  else ((appTally packets).insertionSort (fun a b => b.2 ≤ a.2)).take top_n

/-- The `rtt_values` comprehension: `ack_rtt * 1000` over packets whose
`ack_rtt` is strictly positive. -/
def rtt_values (packets : List Dict) : List ℚ :=
  (packets.filter (fun p => 0 < getQ p "tcp.analysis.ack_rtt" 0)).map
    (fun p => getQ p "tcp.analysis.ack_rtt" 0 * 1000)

/-- `latency`: average of `rtt_values`, or 0 when the list is empty. -/
def latencyOf (packets : List Dict) : ℚ :=
  if rtt_values packets ≠ [] then calculate_average (rtt_values packets) else 0

/-- The `delta_values` comprehension: `time_delta * 1000` over packets whose
`time_delta` is strictly positive. -/
def delta_values (packets : List Dict) : List ℚ :=
  (packets.filter (fun p => 0 < getQ p "frame.time_delta" 0)).map
    (fun p => getQ p "frame.time_delta" 0 * 1000)

/-- `jitter`: `calculate_std_dev(delta_values)`, or 0 when the list is empty. -/
noncomputable def jitterOf (packets : List Dict) : ℝ :=
  if delta_values packets ≠ [] then calculate_std_dev (delta_values packets)
  else 0

/-- `total_bytes`: sum of `frame.len` over the snapshot. -/
def total_bytes (packets : List Dict) : ℤ :=
  (packets.map (fun p => getZ p "frame.len" 0)).sum

/-- The `timestamps` comprehension. -/
def timestamps (packets : List Dict) : List ℚ :=
  packets.map (fun p => getQ p "frame.time_epoch" 0)

/-- `bandwidth` in Mbps: `(total_bytes * 8) / (time_span * 1000000)` when the
time span is positive, 0 otherwise. -/
def bandwidthOf (packets : List Dict) : ℚ :=
  if timestamps packets ≠ [] then
    let time_span :=
      ((timestamps packets).max?.getD 0) - ((timestamps packets).min?.getD 0)
    if 0 < time_span then (total_bytes packets * 8 : ℚ) / (time_span * 1000000)
    else 0
  else 0

/-- `retransmissions`: how many packets carry the retransmission flag. -/
def retransmissionsOf (packets : List Dict) : ℕ :=
  (packets.filter (fun p => getB p "tcp.analysis.retransmission" false)).length

/-- `packet_loss`: retransmitted fraction of the snapshot, as a percentage. -/
def packet_lossOf (packets : List Dict) : ℚ :=
  if packets ≠ [] then
    ((retransmissionsOf packets : ℚ) / (packets.length : ℚ)) * 100
  else 0

/-- The `dns_delay_values` comprehension: `dns.time * 1000` over DNS-protocol
packets whose `dns.time` is strictly positive. -/
def dns_delay_values (packets : List Dict) : List ℚ :=
  (((packets.filter (fun p => getS p "_ws.col.protocol" "" = "DNS")).filter
      (fun p => 0 < getQ p "dns.time" 0)).map (fun p => getQ p "dns.time" 0 * 1000))

/-- `dns_delay`: average of `dns_delay_values`, or 0 when the list is empty. -/
def dns_delayOf (packets : List Dict) : ℚ :=
  if dns_delay_values packets ≠ [] then
    calculate_average (dns_delay_values packets)
  else 0

/-- The `window_values` comprehension: window sizes strictly above 0. -/
def window_values (packets : List Dict) : List ℚ :=
  (packets.filter (fun p => 0 < getZ p "tcp.window_size_value" 0)).map
    (fun p => (getZ p "tcp.window_size_value" 0 : ℚ))

/-- `avg_window`: average of `window_values`, or 0 when the list is empty. -/
def avg_windowOf (packets : List Dict) : ℚ :=
  if window_values packets ≠ [] then calculate_average (window_values packets)
  else 0

/-- `congestion_level` from `avg_window` and `bandwidth`. -/
def congestionOf (packets : List Dict) : String :=
  if 8000 < avg_windowOf packets ∧ 5 < bandwidthOf packets then "Low"
  else if 4000 < avg_windowOf packets ∨ 2 < bandwidthOf packets then "Moderate"
  else "High"

open Classical in
/-- `stability` from the unrounded `jitter` and `packet_loss`. -/
noncomputable def stabilityOf (packets : List Dict) : String :=
  if jitterOf packets < 10 ∧ packet_lossOf packets < 1 then "Stable"
  else if jitterOf packets < 30 ∧ packet_lossOf packets < 5 then "Unstable"
  else "Very Unstable"

/-- The weighted sum of the five component scores, before rounding. -/
noncomputable def health_totalOf (packets : List Dict) : ℝ :=
  max 0 (100 - (latencyOf packets : ℝ) / 2) * (3 / 10) +
  max 0 (100 - jitterOf packets * 2) * (2 / 10) +
  max 0 (100 - (packet_lossOf packets : ℝ) * 10) * (25 / 100) +
  min 100 ((bandwidthOf packets : ℝ) * 10) * (15 / 100) +
  max 0 (100 - (dns_delayOf packets : ℝ) * 2) * (1 / 10)

/-- `health_score`: the rounded weighted sum, clamped with
`max(1, min(100, ·))`. -/
noncomputable def health_scoreOf (packets : List Dict) : ℤ :=
  max 1 (min 100 (pyRoundR (health_totalOf packets)))

/-- The protocol label of each packet, `'Unknown'` when absent. -/
def protocolsOf (packets : List Dict) : List String :=
  packets.map (fun p => getS p "_ws.col.protocol" "Unknown")

/-- The `protocol_counts` defaultdict: each distinct label with its count. -/
def protocol_countsOf (packets : List Dict) : List (String × ℕ) :=
  (protocolsOf packets).dedup.map (fun s => (s, (protocolsOf packets).count s))

/-- One computed summary row (the `metrics` dict). -/
structure MetricsRecord where
  timestamp : ℚ
  latency : ℚ
  jitter : ℝ
  bandwidth : ℚ
  packet_loss : ℚ
  dns_delay : ℚ
  health_score : ℤ
  stability : String
  congestion_level : String
  packet_count : ℕ
  protocol_counts : List (String × ℕ)
  top_applications : List String

/-- `calculate_network_metrics(packets)`: `None` on an empty snapshot,
otherwise the metrics dict with the numeric outputs rounded to 2 decimal
places; `now` is the wall-clock `time.time()` stamped into the record. -/
noncomputable def calculate_network_metrics (now : ℚ) (packets : List Dict) :
    Option MetricsRecord :=
  if packets = [] then none
  else
    some
      { timestamp := now
        latency := round2 (latencyOf packets)
        jitter := round2R (jitterOf packets)
        bandwidth := round2 (bandwidthOf packets)
        packet_loss := round2 (packet_lossOf packets)
        dns_delay := round2 (dns_delayOf packets)
        health_score := health_scoreOf packets
        stability := stabilityOf packets
        congestion_level := congestionOf packets
        packet_count := packets.length
        protocol_counts := protocol_countsOf packets
        top_applications :=
          ((identify_top_applications packets 5).take 3).map (fun a => a.1) }

/-- `deque(maxlen=C).append(x)`: keep only the newest `C` elements. -/
def append_bounded (C : ℕ) (buf : List Dict) (x : Dict) : List Dict :=
  let b := buf ++ [x]
  if C < b.length then b.drop (b.length - C) else b

/-- `METRICS_INTERVAL` (seconds). -/
def METRICS_INTERVAL : ℚ := 5

/-- The mutable state of the capture loop in `start_capture`: the bounded
packet buffer, `last_metrics_time`, and the rows written so far. -/
structure LoopState where
  buffer : List Dict
  last_metrics_time : ℚ
  out : List MetricsRecord

/-- One iteration of the capture loop for a data line: parse result `pkt`
arriving at wall-clock time `t`.  Append to the buffer, then compute and
emit a metrics row only when the interval has elapsed and the buffer is
non-empty, resetting `last_metrics_time` only when a row is written. -/
noncomputable def loop_step (s : LoopState) (e : ℚ × Dict) : LoopState :=
  let buf := append_bounded 1000 s.buffer e.2
  if METRICS_INTERVAL ≤ e.1 - s.last_metrics_time ∧ buf ≠ [] then
    match calculate_network_metrics e.1 buf with
    | some m => ⟨buf, e.1, s.out ++ [m]⟩
    | none => ⟨buf, s.last_metrics_time, s.out⟩
  else ⟨buf, s.last_metrics_time, s.out⟩

/-- The capture loop over a finite trace of arrivals. -/
noncomputable def loop_run (s : LoopState) (events : List (ℚ × Dict)) :
    LoopState :=
  events.foldl loop_step s

/-! ## Sample packets used in concrete scenarios and witnesses -/

/-- A packet with epoch 0 and frame length 100 (all QoS fields absent). -/
def pktA : Dict := [("frame.time_epoch", .f 0), ("frame.len", .i 100)]

/-- A packet with epoch 1 and frame length 100 (all QoS fields absent). -/
def pktB : Dict := [("frame.time_epoch", .f 1), ("frame.len", .i 100)]

/-- Scenario 1 snapshot: ten packets of 100 bytes whose capture timestamps
span exactly one second, with every RTT and inter-frame delta zero (absent)
and no retransmission flags. -/
def scenario10 : List Dict := List.replicate 9 pktA ++ [pktB]

/-! ## Supporting lemmas -/

/-- Folding the bounded append over a whole arrival list from the empty
buffer keeps exactly the newest `C` arrivals. -/
theorem foldl_append_bounded_drop (C : ℕ) (xs : List Dict) :
    xs.foldl (append_bounded C) [] = xs.drop (xs.length - C) := by
  induction xs using List.reverseRecOn with
  | nil => simp
  | append_singleton ys x ih =>
    rw [List.foldl_append, List.foldl_cons, List.foldl_nil, ih]
    unfold append_bounded
    by_cases hC : ys.length < C
    · have h1 : ys.length - C = 0 := by omega
      have h2 : (ys ++ [x]).length - C = 0 := by
        simp only [List.length_append, List.length_cons, List.length_nil]
        omega
      rw [h1, h2]
      simp only [List.drop_zero]
      rw [if_neg]
      simp only [List.length_append, List.length_cons, List.length_nil]
      omega
    · push_neg at hC
      have hsplit : ys.drop (ys.length - C) ++ [x] =
          (ys ++ [x]).drop (ys.length - C) := by
        rw [List.drop_append_eq_append_drop]
        have h0 : ys.length - C - ys.length = 0 := by omega
        rw [h0, List.drop_zero]
      have hlen : (ys.drop (ys.length - C) ++ [x]).length = C + 1 := by
        simp only [List.length_append, List.length_drop, List.length_cons,
          List.length_nil]
        omega
      rw [if_pos (by omega : C < (ys.drop (ys.length - C) ++ [x]).length)]
      rw [hlen, hsplit, List.drop_drop]
      congr 1
      simp only [List.length_append, List.length_cons, List.length_nil]
      omega

/-- A non-empty snapshot always yields the metrics record (the `some`
branch of `calculate_network_metrics`). -/
theorem calculate_network_metrics_of_ne_nil (now : ℚ) (packets : List Dict)
    (h : packets ≠ []) :
    calculate_network_metrics now packets =
      some
        { timestamp := now
          latency := round2 (latencyOf packets)
          jitter := round2R (jitterOf packets)
          bandwidth := round2 (bandwidthOf packets)
          packet_loss := round2 (packet_lossOf packets)
          dns_delay := round2 (dns_delayOf packets)
          health_score := health_scoreOf packets
          stability := stabilityOf packets
          congestion_level := congestionOf packets
          packet_count := packets.length
          protocol_counts := protocol_countsOf packets
          top_applications :=
            ((identify_top_applications packets 5).take 3).map (fun a => a.1) } := by
  unfold calculate_network_metrics
  rw [if_neg h]

/-! ## Claim theorems -/

/-- C6: the metrics computation yields no record exactly on the empty
snapshot: `calculate_network_metrics` returns `none` iff its input is `[]`. -/
theorem compute_none_iff_empty (now : ℚ) (packets : List Dict) :
    calculate_network_metrics now packets = none ↔ packets = [] := by
  unfold calculate_network_metrics
  by_cases h : packets = [] <;> simp [h]

/-- C1: for every non-empty snapshot the produced record's integer
`health_score` lies in the closed interval `[1, 100]` — the weighted, rounded
total is clamped with `max(1, min(100, ·))`. -/
theorem health_score_in_bounds (now : ℚ) (packets : List Dict)
    (h : packets ≠ []) :
    ∃ m, calculate_network_metrics now packets = some m ∧
      1 ≤ m.health_score ∧ m.health_score ≤ 100 := by
  refine ⟨_, calculate_network_metrics_of_ne_nil now packets h, ?_, ?_⟩
  · exact le_max_left _ _
  · exact max_le (by norm_num) (min_le_left _ _)

/-- C1 witness: the bounds hold for a concrete one-packet snapshot. -/
theorem health_score_in_bounds_witness :
    ([pktA] : List Dict) ≠ [] ∧
    ∃ m, calculate_network_metrics 0 [pktA] = some m ∧
      1 ≤ m.health_score ∧ m.health_score ≤ 100 :=
  ⟨by simp, health_score_in_bounds 0 [pktA] (by simp)⟩

/-- C5: appending `C + k` packets (`k > 0`) to an initially empty bounded
buffer leaves exactly the last `C` arrivals, in arrival order. -/
theorem bounded_buffer_fifo (C k : ℕ) (xs : List Dict)
    (hlen : xs.length = C + k) (hk : 0 < k) :
    xs.foldl (append_bounded C) [] = xs.drop k ∧
    (xs.foldl (append_bounded C) []).length = C := by
  have h := foldl_append_bounded_drop C xs
  have hkeq : xs.length - C = k := by omega
  rw [hkeq] at h
  refine ⟨h, ?_⟩
  rw [h, List.length_drop]
  omega

/-- C5 witness: capacity 2, three arrivals — the buffer holds the last two. -/
theorem bounded_buffer_fifo_witness :
    ([pktA, pktB, pktA] : List Dict).length = 2 + 1 ∧ 0 < 1 ∧
    ([pktA, pktB, pktA].foldl (append_bounded 2) [] = [pktA, pktB, pktA].drop 1 ∧
     ([pktA, pktB, pktA].foldl (append_bounded 2) []).length = 2) :=
  ⟨by simp, Nat.one_pos, bounded_buffer_fifo 2 1 [pktA, pktB, pktA] (by simp) Nat.one_pos⟩

/-- Summing squared deviations from any constant `c` expands into the sum of
squares, the plain sum, and the length. -/
theorem sum_sq_sub_const (l : List ℚ) (c : ℚ) :
    (l.map (fun x => (x - c) ^ 2)).sum =
      (l.map (fun x => x ^ 2)).sum - 2 * c * l.sum + l.length * c ^ 2 := by
  induction l with
  | nil => simp
  | cons a t ih =>
    simp only [List.map_cons, List.sum_cons, ih, List.length_cons]
    push_cast
    ring

/-- Squared deviations from the mean sum to `Σx² − (Σx)²/n`. -/
theorem sum_sq_sub_mean (l : List ℚ) (h : l ≠ []) :
    (l.map (fun x => (x - l.sum / l.length) ^ 2)).sum =
      (l.map (fun x => x ^ 2)).sum - l.sum ^ 2 / l.length := by
  have hn : (l.length : ℚ) ≠ 0 :=
    Nat.cast_ne_zero.mpr (List.length_pos.mpr h).ne'
  rw [sum_sq_sub_const]
  field_simp
  ring

/-- The mean-subtracted form of the sample standard deviation equals the
sum-of-squares form used by `statistics_stdev`. -/
theorem stdev_forms (l : List ℚ) (h : l ≠ []) :
    Real.sqrt (((l.map (fun x => (x - l.sum / l.length) ^ 2)).sum /
      ((l.length : ℚ) - 1) : ℚ)) = statistics_stdev l := by
  unfold statistics_stdev
  rw [sum_sq_sub_mean l h]

/-- C9: on two or more samples, the manual fallback branch of
`calculate_std_dev` (mean, squared differences over n−1, square root)
computes the same value as the primary `statistics.stdev` path. -/
theorem std_dev_fallback_eq_primary (values : List ℚ)
    (h : 2 ≤ values.length) :
    std_dev_fallback values = statistics_stdev values := by
  have hne : values ≠ [] := by
    intro e
    rw [e] at h
    simp at h
  unfold std_dev_fallback calculate_average
  rw [if_neg hne]
  exact stdev_forms values hne

/-- C9 witness: the two branches agree on the two-sample list `[0, 2]`. -/
theorem std_dev_fallback_eq_primary_witness :
    2 ≤ ([0, 2] : List ℚ).length ∧
    std_dev_fallback [0, 2] = statistics_stdev [0, 2] :=
  ⟨by simp, std_dev_fallback_eq_primary [0, 2] (by simp)⟩

/-- C7: jitter is the sample standard deviation (n−1 denominator) of
`delta × 1000` over the packets with strictly positive inter-frame delta,
0 with fewer than two qualifying samples; and latency is 0 when no packet
has a strictly positive RTT estimate. -/
theorem jitter_latency_qualifying (packets : List Dict) :
    jitterOf packets =
      (if 2 ≤ (delta_values packets).length then
        Real.sqrt ((((delta_values packets).map
            (fun x => (x - (delta_values packets).sum /
              (delta_values packets).length) ^ 2)).sum /
          (((delta_values packets).length : ℚ) - 1) : ℚ))
      else 0) ∧
    delta_values packets =
      (packets.filter (fun p => 0 < getQ p "frame.time_delta" 0)).map
        (fun p => getQ p "frame.time_delta" 0 * 1000) ∧
    ((∀ p ∈ packets, ¬ 0 < getQ p "tcp.analysis.ack_rtt" 0) →
      latencyOf packets = 0) := by
  refine ⟨?_, rfl, ?_⟩
  · unfold jitterOf calculate_std_dev
    by_cases h0 : delta_values packets = []
    · rw [if_neg (not_not_intro h0), if_neg]
      rw [h0]
      simp
    · rw [if_pos h0]
      by_cases h1 : (delta_values packets).length ≤ 1
      · rw [if_pos h1, if_neg (by omega)]
      · rw [if_neg h1, if_pos (by omega)]
        exact (stdev_forms _ h0).symm
  · intro hall
    have hr : rtt_values packets = [] := by
      unfold rtt_values
      simp only [List.map_eq_nil_iff, List.filter_eq_nil_iff,
        decide_eq_true_eq]
      exact hall
    unfold latencyOf
    rw [if_neg (not_not_intro hr)]

/-- C7 witness: a snapshot with no positive RTT samples has latency 0. -/
theorem jitter_latency_qualifying_witness : latencyOf [pktA] = 0 :=
  (jitter_latency_qualifying [pktA]).2.2 (by decide)

/-- The application-label resolution written as the spec's numbered rules
(§4.2): source-port table hit, destination-port table hit, dynamic
destination-port range, protocol fallback, `"Unknown"`. -/
def spec_app_label (p : Dict) : String :=
  let src := getZ p "tcp.srcport" 0
  let dst := getZ p "tcp.dstport" 0
  let protocol := getS p "_ws.col.protocol" "Unknown"
  if (portMapLookup src).isSome then (portMapLookup src).getD "Unknown"
  else if (portMapLookup dst).isSome then (portMapLookup dst).getD "Unknown"
  else if 1024 < dst ∧ dst < 49151 then "App-Port-" ++ toString dst
  else if protocol ≠ "" ∧ protocol ≠ "Unknown" then protocol
  else "Unknown"

/-- C3: the classifier resolves labels in the fixed priority order of the
spec, first match winning, and a packet with source port 443 and destination
port 51000 is labeled `"HTTPS"`. -/
theorem app_label_resolution_order :
    (∀ p : Dict, app_label p = spec_app_label p) ∧
    app_label [("tcp.srcport", .i 443), ("tcp.dstport", .i 51000)] = "HTTPS" := by
  constructor
  · intro p
    unfold app_label spec_app_label
    cases h1 : portMapLookup (getZ p "tcp.srcport" 0) with
    | some n => simp [h1]
    | none =>
      cases h2 : portMapLookup (getZ p "tcp.dstport" 0) with
      | some n => simp [h1, h2]
      | none => simp [h1, h2]
  · decide

/-- Extending the dict preserves (and can only add) resolvable keys. -/
theorem dget_cons (k : String) (v : FieldValue) (d : Dict) (name : String) :
    dget ((k, v) :: d) name = if k = name then some v else dget d name := by
  by_cases h : k = name <;> simp [dget, List.find?_cons, h]

/-- If the conversion loop succeeds, every header field name is bound in the
resulting dict (as is everything already bound in the accumulator). -/
theorem parseLoop_isSome (fields : List String) :
    ∀ (header : List String) (i : ℕ) (acc d : Dict),
      parseLoop fields header i acc = some d →
      ∀ name, (name ∈ header ∨ (dget acc name).isSome) →
        (dget d name).isSome := by
  intro header
  induction header with
  | nil =>
    intro i acc d h name hmem
    unfold parseLoop at h
    rcases hmem with h' | h'
    · simp at h'
    · obtain rfl : acc = d := by simpa using h
      exact h'
  | cons nm rest ih =>
    intro i acc d h name hmem
    unfold parseLoop at h
    cases hc : convertField nm (fields.getD i "") with
    | none =>
      rw [hc] at h
      exact Option.noConfusion h
    | some v =>
      rw [hc] at h
      apply ih (i + 1) ((nm, v) :: acc) d h name
      rcases hmem with h' | h'
      · rcases List.mem_cons.mp h' with he | hr
        · right
          rw [dget_cons, if_pos he.symm]
          rfl
        · left
          exact hr
      · right
        rw [dget_cons]
        by_cases hk : nm = name
        · simp [hk]
        · rw [if_neg hk]
          exact h'

/-- C4: the parser never raises — for every header and raw value sequence it
returns a dict binding every header field, or (on any conversion error) the
fully-defaulted stand-in packet, whose fields read back as epoch = `now`,
protocol `"Unknown"`, frame length 64, TTL 64, numeric QoS fields 0 and
retransmission `false`. -/
theorem parse_packet_fails_open (fields header : List String) (now : ℚ) :
    ((∀ name ∈ header, (dget (parse_packet fields header now) name).isSome) ∨
      parse_packet fields header now = default_packet now) ∧
    getQ (default_packet now) "frame.time_epoch" 0 = now ∧
    getS (default_packet now) "_ws.col.protocol" "" = "Unknown" ∧
    getZ (default_packet now) "frame.len" 0 = 64 ∧
    getZ (default_packet now) "ip.ttl" 0 = 64 ∧
    getZ (default_packet now) "tcp.srcport" 0 = 0 ∧
    getZ (default_packet now) "tcp.dstport" 0 = 0 ∧
    getZ (default_packet now) "tcp.window_size_value" 0 = 0 ∧
    getQ (default_packet now) "tcp.analysis.ack_rtt" 0 = 0 ∧
    getQ (default_packet now) "frame.time_delta" 0 = 0 ∧
    getQ (default_packet now) "dns.time" 0 = 0 ∧
    getB (default_packet now) "tcp.analysis.retransmission" true = false := by
  refine ⟨?_, rfl, rfl, rfl, rfl, rfl, rfl, rfl, rfl, rfl, rfl, rfl⟩
  unfold parse_packet
  cases hp : parseLoop fields header 0 [] with
  | none =>
    right
    rfl
  | some d =>
    left
    intro name hn
    exact parseLoop_isSome fields header 0 [] d hp name (Or.inl hn)

/-- C8: the capture loop emits a metrics row at an arrival exactly when the
interval has elapsed since the last computation and the post-append buffer is
non-empty, and a trace with no arrivals leaves the state untouched — no
computation happens on elapsed time alone. -/
theorem metrics_emission_gate (s : LoopState) (e : ℚ × Dict) :
    ((loop_step s e).out ≠ s.out ↔
      (METRICS_INTERVAL ≤ e.1 - s.last_metrics_time ∧
        append_bounded 1000 s.buffer e.2 ≠ [])) ∧
    loop_run s [] = s := by
  refine ⟨?_, rfl⟩
  unfold loop_step
  by_cases hg : METRICS_INTERVAL ≤ e.1 - s.last_metrics_time ∧
      append_bounded 1000 s.buffer e.2 ≠ []
  · rw [if_pos hg, calculate_network_metrics_of_ne_nil e.1 _ hg.2]
    exact iff_of_true (fun hEq => by simpa using congrArg List.length hEq) hg
  · rw [if_neg hg]
    exact iff_of_false (fun hne => hne rfl) hg

/-- C10: the produced record's protocol counts are the per-label histogram of
the snapshot (absent protocol fields counted as `"Unknown"`), their values sum
to `packet_count`, and `packet_count` is the snapshot length. -/
theorem protocol_counts_partition (now : ℚ) (packets : List Dict)
    (h : packets ≠ []) :
    ∃ m, calculate_network_metrics now packets = some m ∧
      (m.protocol_counts.map (fun e => e.2)).sum = m.packet_count ∧
      m.packet_count = packets.length ∧
      m.protocol_counts = (protocolsOf packets).dedup.map
        (fun s => (s, (protocolsOf packets).count s)) ∧
      protocolsOf packets =
        packets.map (fun p => getS p "_ws.col.protocol" "Unknown") := by
  refine ⟨_, calculate_network_metrics_of_ne_nil now packets h, ?_, rfl, rfl, rfl⟩
  show ((protocol_countsOf packets).map (fun e => e.2)).sum = packets.length
  unfold protocol_countsOf
  rw [List.map_map]
  have hcomp : ((fun e : String × ℕ => e.2) ∘
      fun s => (s, (protocolsOf packets).count s)) =
      fun s => (protocolsOf packets).count s := rfl
  rw [hcomp, List.sum_map_count_dedup_eq_length]
  simp [protocolsOf]

/-- C10 witness: the histogram of a concrete one-packet snapshot. -/
theorem protocol_counts_partition_witness :
    ([pktA] : List Dict) ≠ [] ∧
    ∃ m, calculate_network_metrics 0 [pktA] = some m ∧
      (m.protocol_counts.map (fun e => e.2)).sum = m.packet_count ∧
      m.packet_count = ([pktA] : List Dict).length ∧
      m.protocol_counts = (protocolsOf [pktA]).dedup.map
        (fun s => (s, (protocolsOf [pktA]).count s)) ∧
      protocolsOf [pktA] =
        ([pktA] : List Dict).map (fun p => getS p "_ws.col.protocol" "Unknown") :=
  ⟨by simp, protocol_counts_partition 0 [pktA] (by simp)⟩

/-- The `timestamps` of the Scenario 1 snapshot. -/
theorem timestamps_scenario10 :
    timestamps scenario10 = [0, 0, 0, 0, 0, 0, 0, 0, 0, 1] := by decide

/-- The total byte count of the Scenario 1 snapshot. -/
theorem total_bytes_scenario10 : total_bytes scenario10 = 1000 := by decide

/-- The raw (pre-rounding) bandwidth of the Scenario 1 snapshot. -/
theorem bandwidthOf_scenario10 : bandwidthOf scenario10 = 8 / 1000 := by
  unfold bandwidthOf
  rw [timestamps_scenario10, total_bytes_scenario10]
  have hmax : ([0, 0, 0, 0, 0, 0, 0, 0, 0, (1 : ℚ)].max?.getD 0) = 1 := by
    decide
  have hmin : ([0, 0, 0, 0, 0, 0, 0, 0, 0, (1 : ℚ)].min?.getD 0) = 0 := by
    decide
  rw [hmax, hmin]
  norm_num
  simp

/-- Rounding 0 to 2 decimal places gives 0. -/
theorem round2_zero : round2 0 = 0 := by
  unfold round2 pyRound
  rw [zero_mul]
  norm_num [Int.fract_zero]

/-- Rounding 0.008 to 2 decimal places gives 0.01. -/
theorem round2_raw_bandwidth : round2 (8 / 1000) = 1 / 100 := by
  unfold round2 pyRound
  have h1 : (8 : ℚ) / 1000 * 100 = 4 / 5 := by norm_num
  rw [h1]
  have hfr : Int.fract ((4 : ℚ) / 5) = 4 / 5 := by
    rw [Int.fract_eq_self]
    norm_num
  have hfl : ⌊(4 : ℚ) / 5⌋ = 0 := by norm_num [Int.floor_eq_zero_iff]
  rw [hfr, hfl, if_neg (by norm_num), if_pos (by norm_num)]
  norm_num

/-- The latency of the Scenario 1 snapshot (no positive RTT samples). -/
theorem latencyOf_scenario10 : latencyOf scenario10 = 0 := by decide

/-- The packet loss of the Scenario 1 snapshot (no retransmission flags). -/
theorem packet_lossOf_scenario10 : packet_lossOf scenario10 = 0 := by
  have hret : retransmissionsOf scenario10 = 0 := by decide
  unfold packet_lossOf
  rw [if_pos (by decide : scenario10 ≠ []), hret]
  norm_num

/-- The DNS delay of the Scenario 1 snapshot (no DNS packets). -/
theorem dns_delayOf_scenario10 : dns_delayOf scenario10 = 0 := by
  have h : dns_delay_values scenario10 = [] := by decide
  unfold dns_delayOf
  rw [if_neg (not_not_intro h)]

/-- C2 counterexample: on the Scenario 1 snapshot the record's `bandwidth`
field is not 0.008 — the stored value is rounded to 2 decimal places. -/
theorem scenario1_bandwidth_not_raw :
    (calculate_network_metrics 0 scenario10).map (fun m => m.bandwidth) ≠
      some (8 / 1000 : ℚ) := by
  rw [calculate_network_metrics_of_ne_nil 0 scenario10 (by decide)]
  rw [Option.map_some']
  intro hEq
  have h2 : round2 (bandwidthOf scenario10) = 8 / 1000 := Option.some.inj hEq
  rw [bandwidthOf_scenario10, round2_raw_bandwidth] at h2
  norm_num at h2

/-- C2 (amended): on the Scenario 1 snapshot the record has latency 0,
jitter 0, packet loss 0 and DNS delay 0; the pre-rounding bandwidth is
0.008 Mbps, and since the stored outputs are rounded to 2 decimal places the
record's `bandwidth` field is 0.01. -/
theorem scenario1_metrics :
    ∃ m, calculate_network_metrics 0 scenario10 = some m ∧
      m.latency = 0 ∧ m.jitter = 0 ∧ m.packet_loss = 0 ∧ m.dns_delay = 0 ∧
      bandwidthOf scenario10 = 8 / 1000 ∧
      m.bandwidth = round2 (bandwidthOf scenario10) ∧
      m.bandwidth = 1 / 100 := by
  refine ⟨_, calculate_network_metrics_of_ne_nil 0 scenario10 (by decide),
    ?_, ?_, ?_, ?_, bandwidthOf_scenario10, rfl, ?_⟩
  · show round2 (latencyOf scenario10) = 0
    rw [latencyOf_scenario10, round2_zero]
  · show round2R (jitterOf scenario10) = 0
    have hd : delta_values scenario10 = [] := by decide
    have hj : jitterOf scenario10 = 0 := by
      unfold jitterOf
      rw [if_neg (not_not_intro hd)]
    rw [hj]
    unfold round2R pyRoundR
    rw [zero_mul]
    simp [Int.fract_zero]
  · show round2 (packet_lossOf scenario10) = 0
    rw [packet_lossOf_scenario10, round2_zero]
  · show round2 (dns_delayOf scenario10) = 0
    rw [dns_delayOf_scenario10, round2_zero]
  · show round2 (bandwidthOf scenario10) = 1 / 100
    rw [bandwidthOf_scenario10, round2_raw_bandwidth]
